import Mathlib

/- Shallow embedding of the Emissions API core (src/emissionsapi/db.py and
   src/emissionsapi/web.py).  Timestamps are modelled as integers, measurement
   values as rationals.  SQLAlchemy sessions are modelled as a pair of database
   states: the committed state (what other sessions and later requests can see)
   and the transaction-local working state; commit publishes the working state.
   A Boolean flag on the session models storage unavailability: every storage
   operation raises when it is set, mirroring the fact that any SQLAlchemy call
   can raise an OperationalError when the database is down. -/

namespace EmissionsApi

abbrev Timestamp := Int

/-- Geometry of a measurement point, db.py lines 98-105: a POINT built from
longitude and latitude (ST_X returns the longitude, ST_Y the latitude). -/
structure Geom where
  longitude : ℚ
  latitude : ℚ
deriving DecidableEq

/-- ORM object for a carbon monoxide point, db.py lines 88-105. -/
structure Carbonmonoxide where
  id : Nat
  value : ℚ
  timestamp : Timestamp
  geom : Geom
deriving DecidableEq

/-- ORM object for a cached response, db.py lines 45-60.  The fields begin_
and end_ embed the columns named begin and end (end is a Lean keyword). -/
structure CacheEntry where
  request : String
  begin_ : Option Timestamp
  end_ : Option Timestamp
  response : String
deriving DecidableEq

/-- One database: the carbonmonoxide table (kept in primary-key order, ids are
assigned from the ascending sequence nextId), the file table of imported
filenames (db.py lines 37-42), and the cache table. -/
structure DBState where
  carbonmonoxide : List Carbonmonoxide
  nextId : Nat
  files : List String
  cache : List CacheEntry
deriving DecidableEq

/-- Errors a storage operation can raise. -/
inductive DBError
  | unavailable
  | duplicateImport
deriving DecidableEq

/-- A SQLAlchemy session: committed database state, transaction-local working
state, and a flag modelling an unavailable storage backend. -/
structure Session where
  committed : DBState
  tx : DBState
  storageFailed : Bool
deriving DecidableEq

/-- The deletion predicate of Cache.invalidate, db.py lines 79-84:
and_(or_(begin is None, begin <= latest), or_(end is None, end > earliest)). -/
def Cache.shouldDelete (earliest latest : Timestamp) (c : CacheEntry) : Bool :=
  (match c.begin_ with
    | none => true
    | some b => decide (b ≤ latest)) &&
  (match c.end_ with
    | none => true
    | some e => decide (earliest < e))

/-- session.query(cache).filter(p).delete(): removes from the transaction view
every cache row satisfying p; raises when the storage is unavailable. -/
def Session.cacheDeleteWhere (s : Session) (p : CacheEntry → Bool) :
    Except DBError Session :=
  if s.storageFailed then .error .unavailable
  else .ok { s with tx := { s.tx with cache := s.tx.cache.filter (fun c => !(p c)) } }

/-- session.commit(): publishes the transaction-local state. -/
def Session.commit (s : Session) : Except DBError Session :=
  if s.storageFailed then .error .unavailable
  else .ok { s with committed := s.tx }

/-- session.rollback(): discards the transaction-local state. -/
def Session.rollback (s : Session) : Session :=
  { s with tx := s.committed }

/-- Cache.invalidate, db.py lines 62-85: deletes all cached responses whose
interval meets the invalidation window, then commits.  There is no exception
handling in the source, so any storage error propagates to the caller. -/
def Cache.invalidate (s : Session) (earliest latest : Timestamp) :
    Except DBError Session :=
  match s.cacheDeleteWhere (Cache.shouldDelete earliest latest) with
  | .error err => .error err
  | .ok s1 => s1.commit

/-- with_session, db.py lines 108-131: runs f on a fresh session over the
current database; on an exception the session is rolled back and closed and
the exception is re-raised; on success the session is closed (without commit)
and the result returned.  The observable database is the committed state. -/
def with_session (f : Session → Except DBError Session) (db : DBState)
    (storageFailed : Bool) : Except DBError DBState :=
  match f { committed := db, tx := db, storageFailed := storageFailed } with
  | .error err => .error err
  | .ok s => .ok s.committed

/-- One row of the data argument of insert, db.py lines 154-170. -/
structure PointData where
  value : ℚ
  timestamp : Timestamp
  longitude : ℚ
  latitude : ℚ
deriving DecidableEq

/-- Rows produced by the bulk INSERT of db.py lines 166-170, with ids assigned
by the primary-key sequence starting at start. -/
def rowsFrom (start : Nat) : List PointData → List Carbonmonoxide
  | [] => []
  | d :: rest =>
    { id := start, value := d.value, timestamp := d.timestamp,
      geom := { longitude := d.longitude, latitude := d.latitude } } :: rowsFrom (start + 1) rest

/-- insert, db.py lines 154-170: executes one bulk INSERT of the whole batch
inside the session transaction.  It does not commit. -/
def insert (s : Session) (data : List PointData) : Except DBError Session :=
  if s.storageFailed then .error .unavailable
  else .ok { s with tx := { s.tx with
      carbonmonoxide := s.tx.carbonmonoxide ++ rowsFrom s.tx.nextId data,
      nextId := s.tx.nextId + data.length } }

/-- Modelled from the spec: markImported(filename) records a source file
in the ledger of imports (the File table of db.py lines 37-42), in the session
transaction and fails with DuplicateImport when the filename is already
present.  The ledger-writing code itself is not under src/; only the File ORM
class is declared there. -/
def markImported (s : Session) (filename : String) : Except DBError Session :=
  if s.storageFailed then .error .unavailable
  else if s.tx.files.contains filename then .error .duplicateImport
  else .ok { s with tx := { s.tx with files := s.tx.files ++ [filename] } }

/-- Smallest element of a list under the linear order (SQL min over a group),
with the first element as the fold seed. -/
def listMin {α : Type} [LinearOrder α] [Inhabited α] (xs : List α) : α :=
  xs.foldl min xs.headI

/-- Largest element of a list under the linear order (SQL max over a group). -/
def listMax {α : Type} [LinearOrder α] [Inhabited α] (xs : List α) : α :=
  xs.foldl max xs.headI

/-- Modelled from the spec: the ingest driver (the CLI import tooling, out of
scope of src/) runs the batch insert, marks the source file as imported, and
then invalidates the cache with the min and max timestamp of the inserted
batch, all on one session.  The only commit on this path is the one inside
Cache.invalidate. -/
def ingest (s : Session) (filename : String) (data : List PointData) :
    Except DBError Session :=
  match insert s data with
  | .error err => .error err
  | .ok s1 =>
    match markImported s1 filename with
    | .error err => .error err
    | .ok s2 =>
      Cache.invalidate s2 (listMin (data.map PointData.timestamp))
        (listMax (data.map PointData.timestamp))

/-- A SQLAlchemy Query over the carbonmonoxide table: the rows satisfying the
filters accumulated so far, plus the LIMIT and OFFSET values if set.  The
source query (db.py lines 182-185) requests no ordering. -/
structure PointQuery where
  rows : List Carbonmonoxide
  lim : Option Nat
  off : Option Nat
deriving DecidableEq

/-- query.filter(p): narrows the row set. -/
def PointQuery.filter (q : PointQuery) (p : Carbonmonoxide → Bool) : PointQuery :=
  { q with rows := q.rows.filter p }

/-- query.limit(n). -/
def PointQuery.limit (q : PointQuery) (n : Nat) : PointQuery :=
  { q with lim := some n }

/-- query.offset(n). -/
def PointQuery.offset (q : PointQuery) (n : Nat) : PointQuery :=
  { q with off := some n }

/-- get_points, db.py lines 173-185: all points of the carbonmonoxide table
visible to the session, with no filter, no ordering, no limit and no offset. -/
def get_points (session : Session) : PointQuery :=
  { rows := session.tx.carbonmonoxide, lim := none, off := none }

/-- An opaque WKT element (geoalchemy2.WKTElement). -/
structure Wkt where
  text : String
deriving DecidableEq

/-- filter_query, db.py lines 244-280.  The PostGIS predicates ST_DWITHIN and
ST_WITHIN are external library functions and are taken as parameters.  If a
WKT element is given, the spatial filter is ST_DWITHIN when a distance is
given and ST_WITHIN otherwise; a distance without a WKT element is ignored.
Then points are kept with begin <= timestamp and with end > timestamp. -/
def filter_query (ST_DWITHIN : Geom → Wkt → ℚ → Bool) (ST_WITHIN : Geom → Wkt → Bool)
    (query : PointQuery) (wkt : Option Wkt) (distance : Option ℚ)
    (begin_ : Option Timestamp) (end_ : Option Timestamp) : PointQuery :=
  let query1 := match wkt, distance with
    | none, _ => query
    | some w, some d => query.filter (fun p => ST_DWITHIN p.geom w d)
    | some w, none => query.filter (fun p => ST_WITHIN p.geom w)
  let query2 := match begin_ with
    | none => query1
    | some b => query1.filter (fun p => decide (b ≤ p.timestamp))
  match end_ with
  | none => query2
  | some e => query2.filter (fun p => decide (e > p.timestamp))

/-- limit_offset_query, db.py lines 283-303: applies query.limit when a limit
is given and query.offset when an offset is given. -/
def limit_offset_query (query : PointQuery) (limit offset : Option Nat) : PointQuery :=
  let query1 := match limit with
    | none => query
    | some l => query.limit l
  match offset with
  | none => query1
  | some o => query1.offset o

/-- Executing a query against the storage: the rows come back in the order the
storage chooses, OFFSET skips rows and LIMIT truncates (SQL applies OFFSET
before LIMIT whatever the order of the two method calls). -/
def runQuery (q : PointQuery) (tableOrder : List Carbonmonoxide) : List Carbonmonoxide :=
  let afterOffset := match q.off with
    | none => tableOrder
    | some o => tableOrder.drop o
  match q.lim with
  | none => afterOffset
  | some n => afterOffset.take n

/-- The possible result lists of a query: since the source query requests no
ORDER BY, SQL leaves the row order unspecified, so any permutation of the
filtered rows is a legal underlying order. -/
def Executes (q : PointQuery) (out : List Carbonmonoxide) : Prop :=
  ∃ tableOrder : List Carbonmonoxide, tableOrder.Perm q.rows ∧ out = runQuery q tableOrder

/-- A value computed by the SQL engine that may be an irrational square root
or NULL: sqrtOf x stands for the nonnegative square root of x.  Used for the
stddev aggregate, whose exact value is irrational in general. -/
inductive SqlNum
  | null
  | sqrtOf (x : ℚ)
deriving DecidableEq

/-- One result row of get_statistics, in the order of the select list of
db.py lines 233-241: count, avg, stddev, min value, max value, min timestamp,
max timestamp, truncated interval start. -/
abbrev StatsRow := Nat × ℚ × SqlNum × ℚ × ℚ × Timestamp × Timestamp × Timestamp

/-- SQL avg over the values of a group. -/
def sqlAvg (xs : List ℚ) : ℚ :=
  xs.sum / (xs.length : ℚ)

/-- PostgreSQL stddev, the sample standard deviation (alias of stddev_samp):
the square root of the sum of squared deviations divided by n - 1, and NULL
for a group with fewer than two rows. -/
def sqlStddevSamp (xs : List ℚ) : SqlNum :=
  if 2 ≤ xs.length then
    .sqrtOf ((xs.map (fun x => (x - sqlAvg xs) ^ 2)).sum / ((xs.length : ℚ) - 1))
  else .null

/-- The group of points whose truncated timestamp is k.  PostgreSQL date_trunc
is an external engine function and is taken as the parameter date_trunc. -/
def statGroup (date_trunc : String → Timestamp → Timestamp) (interval_length : String)
    (rows : List Carbonmonoxide) (k : Timestamp) : List Carbonmonoxide :=
  rows.filter (fun p => date_trunc interval_length p.timestamp == k)

/-- get_statistics, db.py lines 206-241: groups the points by
date_trunc(interval_length, timestamp) and emits per group the select list
count(value), avg(value), stddev(value), min(value), max(value),
min(timestamp), max(timestamp), interval, in that order. -/
def get_statistics (date_trunc : String → Timestamp → Timestamp)
    (interval_length : String) (rows : List Carbonmonoxide) : List StatsRow :=
  ((rows.map (fun p => date_trunc interval_length p.timestamp)).dedup).map (fun k =>
    let g := statGroup date_trunc interval_length rows k
    let vals := g.map Carbonmonoxide.value
    let times := g.map Carbonmonoxide.timestamp
    (vals.length, sqlAvg vals, sqlStddevSamp vals, listMin vals, listMax vals,
      listMin times, listMax times, k))

/- Formalisations of the wording of the spec, for comparison with the code
   (used to state the cache-invalidation claims). -/

/-- Spec wording: the entry is removed iff NOT(end is non-null and
end <= earliest, or begin is non-null and begin > latest). -/
def specRemoved (earliest latest : Timestamp) (c : CacheEntry) : Prop :=
  ¬ ((∃ e, c.end_ = some e ∧ e ≤ earliest) ∨ (∃ b, c.begin_ = some b ∧ latest < b))

/-- Spec wording: the covered interval of the entry lies entirely within the
half-open window from b1 to b2. -/
def entryWithin (c : CacheEntry) (b1 b2 : Timestamp) : Prop :=
  ∃ b e, c.begin_ = some b ∧ c.end_ = some e ∧ b1 ≤ b ∧ e ≤ b2

/-- Spec wording: the half-open windows from b1 to b2 and from x to y are
disjoint (no instant lies in both). -/
def windowDisjointHalfOpen (b1 b2 x y : Timestamp) : Prop :=
  b2 ≤ x ∨ y ≤ b1

/-- The half-open window from b1 to b2 is disjoint from the closed interval
from earliest to latest. -/
def windowDisjointClosed (b1 b2 earliest latest : Timestamp) : Prop :=
  b2 ≤ earliest ∨ latest < b1

/- Embedding of the web layer, src/emissionsapi/web.py.  The helper functions
   bounding_box_to_wkt, polygon_to_wkt and the table country_bounding_boxes
   come from modules outside src/ and are taken as parameters: a ValueError of
   bounding_box_to_wkt is an error of the first kind, a RESTParamError of
   polygon_to_wkt carries its message. -/

/-- The corners of a bounding box (the geoframe request parameter). -/
structure BBox where
  vals : List ℚ
deriving DecidableEq

/-- A raw polygon request parameter. -/
structure PolyParam where
  vals : List ℚ
deriving DecidableEq

/-- A Python exception escaping an endpoint. -/
inductive PyError
  | typeError
  | attributeError
  | valueError
deriving DecidableEq

/-- Outcome of a web endpoint: a returned value, an HTTP 400 with a message,
or an uncaught Python exception. -/
inductive WebOutcome (α : Type)
  | ok (a : α)
  | badRequest (msg : String)
  | raised (e : PyError)
deriving DecidableEq

/-- True when the endpoint returned data. -/
def WebOutcome.returnsData {α : Type} : WebOutcome α → Bool
  | .ok _ => true
  | _ => false

/-- The spatial-parameter parsing block shared verbatim by get_data and
get_daily, web.py lines 66-83 and 111-128: geoframe is tried first, then
country, then polygon; the branches of lower precedence are not looked at.
In the country branch the bounding_box_to_wkt call is not wrapped in a try
block, so a ValueError there escapes. -/
def spatial_wkt (bounding_box_to_wkt : BBox → Except Unit Wkt)
    (country_bounding_boxes : String → Option BBox)
    (polygon_to_wkt : PolyParam → Except String Wkt)
    (geoframe : Option BBox) (country : Option String) (polygon : Option PolyParam) :
    WebOutcome (Option Wkt) :=
  match geoframe with
  | some g =>
    match bounding_box_to_wkt g with
    | .ok w => .ok (some w)
    | .error _ => .badRequest "Invalid geoparam"
  | none =>
    match country with
    | some c =>
      match country_bounding_boxes c with
      | none => .badRequest "Unknown country code."
      | some bb =>
        match bounding_box_to_wkt bb with
        | .ok w => .ok (some w)
        | .error _ => .raised .valueError
    | none =>
      match polygon with
      | some p =>
        match polygon_to_wkt p with
        | .ok w => .ok (some w)
        | .error msg => .badRequest msg
      | none => .ok none

/-- The parameter list of db.get_points, db.py line 173: only session. -/
def get_points_py_params : List String := ["session"]

/-- Binding a Python call: nPositional arguments are bound to the first
parameters; every keyword argument must name one of the remaining parameters
and every remaining parameter must receive a keyword argument (db.get_points
has no defaults), otherwise the call raises TypeError. -/
def pyBindKwargs (params : List String) (nPositional : Nat) (kwargs : List String) :
    Option PyError :=
  if kwargs.all (fun k => (params.drop nPositional).contains k)
      && (params.drop nPositional).all (fun q => kwargs.contains q) then
    none
  else some .typeError

/-- The module-level names defined by src/emissionsapi/db.py. -/
def db_module_attrs : List String :=
  ["logger", "database", "Base", "File", "Cache", "Carbonmonoxide",
   "with_session", "get_session", "insert", "get_points", "get_averages",
   "get_statistics", "filter_query", "limit_offset_query"]

/-- Looking up an attribute of a module: raises AttributeError when the module
does not define the name. -/
def pyGetattr (attrs : List String) (name : String) : Option PyError :=
  if attrs.contains name then none else some .attributeError

/-- The get_data endpoint, web.py lines 49-104, after date parsing: computes
the spatial WKT element, then calls
db.get_points(session, polygon=wkt_polygon, begin=begin, end=end) - a call
carrying keyword arguments that get_points does not accept - then would apply
limit_offset_query and serialize the rows. -/
def web_get_data (bounding_box_to_wkt : BBox → Except Unit Wkt)
    (country_bounding_boxes : String → Option BBox)
    (polygon_to_wkt : PolyParam → Except String Wkt) (session : Session)
    (country : Option String) (geoframe : Option BBox) (polygon : Option PolyParam)
    (_begin : Option Timestamp) (_end : Option Timestamp)
    (limit offset : Option Nat) : WebOutcome (List (Carbonmonoxide × ℚ × ℚ)) :=
  match spatial_wkt bounding_box_to_wkt country_bounding_boxes polygon_to_wkt
      geoframe country polygon with
  | .badRequest msg => .badRequest msg
  | .raised e => .raised e
  | .ok _wkt_polygon =>
    match pyBindKwargs get_points_py_params 1 ["polygon", "begin", "end"] with
    | some e => .raised e
    | none =>
      let query := limit_offset_query (get_points session) limit offset
      .ok (query.rows.map (fun p => (p, p.geom.longitude, p.geom.latitude)))

/-- The get_daily endpoint, web.py lines 107-146, after date parsing: computes
the spatial WKT element, then looks up emissionsapi.db.get_daily, a name the
db module does not define, so the lookup raises AttributeError before any
query is built.  The success branch is unreachable. -/
def web_get_daily (bounding_box_to_wkt : BBox → Except Unit Wkt)
    (country_bounding_boxes : String → Option BBox)
    (polygon_to_wkt : PolyParam → Except String Wkt) (_session : Session)
    (country : Option String) (geoframe : Option BBox) (polygon : Option PolyParam)
    (_begin : Option Timestamp) (_end : Option Timestamp)
    (_limit _offset : Option Nat) : WebOutcome (List StatsRow) :=
  match spatial_wkt bounding_box_to_wkt country_bounding_boxes polygon_to_wkt
      geoframe country polygon with
  | .badRequest msg => .badRequest msg
  | .raised e => .raised e
  | .ok _wkt_polygon =>
    match pyGetattr db_module_attrs "get_daily" with
    | some e => .raised e
    | none => .ok []

/-- Time filter of a query as a predicate on a point: the begin bound is
inclusive, the end bound exclusive, an absent bound is no constraint. -/
def temporalOk (begin_ : Option Timestamp) (end_ : Option Timestamp)
    (p : Carbonmonoxide) : Prop :=
  (match begin_ with
    | none => True
    | some b => b ≤ p.timestamp) ∧
  (match end_ with
    | none => True
    | some e => p.timestamp < e)

/- Concrete states used to instantiate the theorems below. -/

/-- A cache entry beginning exactly at the upper bound of an invalidation
window: its interval [10,20) is disjoint from the half-open window [0,10). -/
def ceBoundary : CacheEntry :=
  { request := "q1", begin_ := some 10, end_ := some 20, response := "r1" }

/-- A database holding only the boundary cache entry. -/
def dbBoundary : DBState :=
  { carbonmonoxide := [], nextId := 1, files := [], cache := [ceBoundary] }

/-- A fresh session over dbBoundary with the storage available. -/
def sBoundary : Session :=
  { committed := dbBoundary, tx := dbBoundary, storageFailed := false }

/-- The same database with the cache emptied. -/
def dbBoundaryAfter : DBState :=
  { carbonmonoxide := [], nextId := 1, files := [], cache := [] }

/-- The session after invalidating the window from 0 to 10 on sBoundary. -/
def sBoundaryAfter : Session :=
  { committed := dbBoundaryAfter, tx := dbBoundaryAfter, storageFailed := false }

/-- A cache entry far above the demo invalidation windows; it survives them. -/
def ceLater : CacheEntry :=
  { request := "q2", begin_ := some 20, end_ := some 30, response := "r2" }

/-- A database holding both demo cache entries. -/
def dbTwoEntries : DBState :=
  { carbonmonoxide := [], nextId := 1, files := [],
    cache := [ceBoundary, ceLater] }

/-- A fresh session over dbTwoEntries with the storage available. -/
def sTwoEntries : Session :=
  { committed := dbTwoEntries, tx := dbTwoEntries, storageFailed := false }

/-- The database after invalidating the window from 21 to 22 on sTwoEntries:
ceBoundary (interval [10,20)) is disjoint even from the closed window and
survives; ceLater overlaps and is deleted. -/
def dbTwoEntriesAfter : DBState :=
  { carbonmonoxide := [], nextId := 1, files := [], cache := [ceBoundary] }

/-- The session after that invalidation. -/
def sTwoEntriesAfter : Session :=
  { committed := dbTwoEntriesAfter, tx := dbTwoEntriesAfter, storageFailed := false }

/-- An empty database. -/
def emptyDB : DBState :=
  { carbonmonoxide := [], nextId := 1, files := [], cache := [] }

/-- A session whose storage backend is down. -/
def failedSession : Session :=
  { committed := emptyDB, tx := emptyDB, storageFailed := true }

/-- Three points inserted in this order; ids 1, 2, 3. -/
def pt1 : Carbonmonoxide :=
  { id := 1, value := 1, timestamp := 1, geom := { longitude := 0, latitude := 0 } }

/-- Second-inserted point. -/
def pt2 : Carbonmonoxide :=
  { id := 2, value := 2, timestamp := 2, geom := { longitude := 0, latitude := 0 } }

/-- Third-inserted point. -/
def pt3 : Carbonmonoxide :=
  { id := 3, value := 3, timestamp := 3, geom := { longitude := 0, latitude := 0 } }

/-- A database holding the three points in primary-key order. -/
def threeDB : DBState :=
  { carbonmonoxide := [pt1, pt2, pt3], nextId := 4, files := [], cache := [] }

/-- A fresh session over threeDB. -/
def threeSession : Session :=
  { committed := threeDB, tx := threeDB, storageFailed := false }

/-- An always-true stand-in for the PostGIS ST_DWithin predicate. -/
def dwAny : Geom → Wkt → ℚ → Bool := fun _ _ _ => true

/-- An always-true stand-in for the PostGIS ST_Within predicate. -/
def wiAny : Geom → Wkt → Bool := fun _ _ => true

/-- The identity stand-in for the PostgreSQL date_trunc function. -/
def dtId : String → Timestamp → Timestamp := fun _ t => t

/-- A one-point query whose point has timestamp 5. -/
def demoQuery : PointQuery :=
  { rows := [{ id := 1, value := 1, timestamp := 5,
               geom := { longitude := 0, latitude := 0 } }],
    lim := none, off := none }

/-- A one-row ingest batch with timestamp 3. -/
def demoData : List PointData :=
  [{ value := 2, timestamp := 3, longitude := 10, latitude := 20 }]

/-- A database with two cache entries, one covering timestamp 3. -/
def demoDB : DBState :=
  { carbonmonoxide := [], nextId := 1, files := [],
    cache := [{ request := "a", begin_ := some 0, end_ := some 9, response := "ra" },
              { request := "b", begin_ := some 100, end_ := some 200, response := "rb" }] }

/-- A fresh session over demoDB. -/
def demoSession : Session :=
  { committed := demoDB, tx := demoDB, storageFailed := false }

/-- The database after ingesting demoData as file f.nc on demoSession: the
point is inserted, the file recorded, the overlapped cache entry removed. -/
def demoOutDB : DBState :=
  { carbonmonoxide := [{ id := 1, value := 2, timestamp := 3,
                         geom := { longitude := 10, latitude := 20 } }],
    nextId := 2, files := ["f.nc"],
    cache := [{ request := "b", begin_ := some 100, end_ := some 200, response := "rb" }] }

/-- The session after that ingest. -/
def demoOutSession : Session :=
  { committed := demoOutDB, tx := demoOutDB, storageFailed := false }

/- Helper lemmas. -/

/-- The code's deletion predicate agrees with the removal formula of the spec
claim: an entry is deleted iff NOT(end is non-null and end <= earliest, or
begin is non-null and begin > latest). -/
theorem shouldDelete_iff (earliest latest : Timestamp) (c : CacheEntry) :
    Cache.shouldDelete earliest latest c = true ↔ specRemoved earliest latest c := by
  unfold Cache.shouldDelete specRemoved
  cases hb : c.begin_ <;> cases he : c.end_ <;> simp [hb, he]
  exact and_comm

/-- After a successful invalidate, the committed cache is the old transaction
cache with the rows satisfying the deletion predicate removed. -/
theorem invalidate_ok_committed (earliest latest : Timestamp) (s s1 : Session)
    (hok : Cache.invalidate s earliest latest = .ok s1) :
    s1.committed.cache
      = s.tx.cache.filter (fun x => !(Cache.shouldDelete earliest latest x)) := by
  unfold Cache.invalidate Session.cacheDeleteWhere Session.commit at hok
  cases hf : s.storageFailed
  · simp [hf] at hok
    rw [← hok]
  · simp [hf] at hok

/-- Folding min over a list yields the seed or a member of the list. -/
theorem foldl_min_mem {α : Type} [LinearOrder α] (xs : List α) :
    ∀ a : α, xs.foldl min a = a ∨ xs.foldl min a ∈ xs := by
  induction xs with
  | nil => intro a; exact Or.inl rfl
  | cons b t ih =>
    intro a
    simp only [List.foldl_cons]
    rcases ih (min a b) with h | h
    · rcases min_choice a b with hm | hm
      · exact Or.inl (by rw [h, hm])
      · exact Or.inr (by rw [h, hm]; exact List.mem_cons_self b t)
    · exact Or.inr (List.mem_cons_of_mem b h)

/-- Folding min over a list is at most the seed. -/
theorem foldl_min_le_init {α : Type} [LinearOrder α] (xs : List α) :
    ∀ a : α, xs.foldl min a ≤ a := by
  induction xs with
  | nil => intro a; exact le_refl a
  | cons b t ih =>
    intro a
    simp only [List.foldl_cons]
    exact le_trans (ih (min a b)) (min_le_left a b)

/-- Folding min over a list is at most every member. -/
theorem foldl_min_le_mem {α : Type} [LinearOrder α] (xs : List α) :
    ∀ a x : α, x ∈ xs → xs.foldl min a ≤ x := by
  induction xs with
  | nil => intro a x hx; cases hx
  | cons b t ih =>
    intro a x hx
    simp only [List.foldl_cons]
    rcases List.mem_cons.mp hx with h | h
    · subst h
      exact le_trans (foldl_min_le_init t (min a x)) (min_le_right a x)
    · exact ih (min a b) x h

/-- Folding max over a list yields the seed or a member of the list. -/
theorem foldl_max_mem {α : Type} [LinearOrder α] (xs : List α) :
    ∀ a : α, xs.foldl max a = a ∨ xs.foldl max a ∈ xs := by
  induction xs with
  | nil => intro a; exact Or.inl rfl
  | cons b t ih =>
    intro a
    simp only [List.foldl_cons]
    rcases ih (max a b) with h | h
    · rcases max_choice a b with hm | hm
      · exact Or.inl (by rw [h, hm])
      · exact Or.inr (by rw [h, hm]; exact List.mem_cons_self b t)
    · exact Or.inr (List.mem_cons_of_mem b h)

/-- Folding max over a list is at least the seed. -/
theorem foldl_max_ge_init {α : Type} [LinearOrder α] (xs : List α) :
    ∀ a : α, a ≤ xs.foldl max a := by
  induction xs with
  | nil => intro a; exact le_refl a
  | cons b t ih =>
    intro a
    simp only [List.foldl_cons]
    exact le_trans (le_max_left a b) (ih (max a b))

/-- Folding max over a list is at least every member. -/
theorem foldl_max_ge_mem {α : Type} [LinearOrder α] (xs : List α) :
    ∀ a x : α, x ∈ xs → x ≤ xs.foldl max a := by
  induction xs with
  | nil => intro a x hx; cases hx
  | cons b t ih =>
    intro a x hx
    simp only [List.foldl_cons]
    rcases List.mem_cons.mp hx with h | h
    · subst h
      exact le_trans (le_max_right a x) (foldl_max_ge_init t (max a x))
    · exact ih (max a b) x h

/-- The minimum of a nonempty list is a member. -/
theorem listMin_mem {α : Type} [LinearOrder α] [Inhabited α] (xs : List α)
    (h : xs ≠ []) : listMin xs ∈ xs := by
  cases xs with
  | nil => exact absurd rfl h
  | cons a t =>
    show List.foldl min a (a :: t) ∈ a :: t
    rcases foldl_min_mem (a :: t) a with h1 | h1
    · rw [h1]; exact List.mem_cons_self a t
    · exact h1

/-- The minimum of a list is at most every member. -/
theorem listMin_le {α : Type} [LinearOrder α] [Inhabited α] (xs : List α)
    (x : α) (hx : x ∈ xs) : listMin xs ≤ x := by
  cases xs with
  | nil => cases hx
  | cons a t =>
    show List.foldl min a (a :: t) ≤ x
    exact foldl_min_le_mem (a :: t) a x hx

/-- Characterisation of the minimum of a nonempty list. -/
theorem listMin_spec {α : Type} [LinearOrder α] [Inhabited α] (xs : List α)
    (hne : xs ≠ []) (m : α) :
    (m ∈ xs ∧ ∀ x ∈ xs, m ≤ x) ↔ m = listMin xs := by
  constructor
  · rintro ⟨hm, hall⟩
    exact le_antisymm (hall _ (listMin_mem xs hne)) (listMin_le xs m hm)
  · rintro rfl
    exact ⟨listMin_mem xs hne, fun x hx => listMin_le xs x hx⟩

/-- The maximum of a nonempty list is a member. -/
theorem listMax_mem {α : Type} [LinearOrder α] [Inhabited α] (xs : List α)
    (h : xs ≠ []) : listMax xs ∈ xs := by
  cases xs with
  | nil => exact absurd rfl h
  | cons a t =>
    show List.foldl max a (a :: t) ∈ a :: t
    rcases foldl_max_mem (a :: t) a with h1 | h1
    · rw [h1]; exact List.mem_cons_self a t
    · exact h1

/-- The maximum of a list is at least every member. -/
theorem listMax_ge {α : Type} [LinearOrder α] [Inhabited α] (xs : List α)
    (x : α) (hx : x ∈ xs) : x ≤ listMax xs := by
  cases xs with
  | nil => cases hx
  | cons a t =>
    show x ≤ List.foldl max a (a :: t)
    exact foldl_max_ge_mem (a :: t) a x hx

/-- Characterisation of the maximum of a nonempty list. -/
theorem listMax_spec {α : Type} [LinearOrder α] [Inhabited α] (xs : List α)
    (hne : xs ≠ []) (m : α) :
    (m ∈ xs ∧ ∀ x ∈ xs, x ≤ m) ↔ m = listMax xs := by
  constructor
  · rintro ⟨hm, hall⟩
    exact le_antisymm (listMax_ge xs m hm) (hall _ (listMax_mem xs hne))
  · rintro rfl
    exact ⟨listMax_mem xs hne, fun x hx => listMax_ge xs x hx⟩

/- Claim theorems. -/

/-- C1 (counterexample): the covered interval [10,20) of the entry ceBoundary
lies entirely within the window [10,20), which is disjoint from the
invalidated half-open window [0,10); yet invalidate(0, 10) deletes the entry,
because the code compares begin <= latest, treating the invalidation window
as closed at latest. -/
theorem c1_counterexample :
    windowDisjointHalfOpen 10 20 0 10 ∧ entryWithin ceBoundary 10 20 ∧
    ceBoundary ∈ sBoundary.tx.cache ∧
    Cache.invalidate sBoundary 0 10 = .ok sBoundaryAfter ∧
    ceBoundary ∉ sBoundaryAfter.committed.cache := by
  refine ⟨Or.inr le_rfl, ⟨10, 20, rfl, rfl, le_rfl, le_rfl⟩, ?_, rfl, ?_⟩
  · exact List.mem_singleton.mpr rfl
  · exact List.not_mem_nil ceBoundary

/-- C1 (amended): after a successful invalidate(earliest, latest) an entry
survives exactly when it was present and the removal formula of the claim
does not hold - the iff part of the claim is the code - and an entry whose
covered interval lies within a window disjoint from the CLOSED interval
[earliest, latest] is never deleted.  (Disjointness of half-open windows
alone does not protect an entry: see the counterexample.) -/
theorem c1_amended (earliest latest : Timestamp) (c : CacheEntry) (s s1 : Session)
    (hok : Cache.invalidate s earliest latest = .ok s1) :
    (c ∈ s1.committed.cache ↔ c ∈ s.tx.cache ∧ ¬ specRemoved earliest latest c) ∧
    (∀ b1 b2 : Timestamp, c ∈ s.tx.cache → entryWithin c b1 b2 →
      windowDisjointClosed b1 b2 earliest latest → c ∈ s1.committed.cache) := by
  have hcache := invalidate_ok_committed earliest latest s s1 hok
  constructor
  · rw [hcache, List.mem_filter]
    rw [← shouldDelete_iff earliest latest c]
    simp
  · rintro b1 b2 hmem ⟨b, e, hcb, hce, hb1, he2⟩ hdisj
    rw [hcache, List.mem_filter]
    refine ⟨hmem, ?_⟩
    have hfalse : Cache.shouldDelete earliest latest c = false := by
      unfold Cache.shouldDelete
      rw [hcb, hce]
      rcases hdisj with h | h
      · have hx : ¬ earliest < e := by linarith
        simp [hx]
      · have hx : ¬ b ≤ latest := by linarith
        simp [hx]
    simp [hfalse]

/-- C1 witness: the amended theorem instantiated on sTwoEntries with the
window from 21 to 22; the entry ceBoundary is untouched by it. -/
theorem c1_amended_witness :
    Cache.invalidate sTwoEntries 21 22 = .ok sTwoEntriesAfter ∧
    (ceBoundary ∈ sTwoEntriesAfter.committed.cache ↔
      ceBoundary ∈ sTwoEntries.tx.cache ∧ ¬ specRemoved 21 22 ceBoundary) :=
  ⟨rfl, (c1_amended 21 22 ceBoundary sTwoEntries sTwoEntriesAfter rfl).1⟩

/-- C2 (counterexample): with the storage backend down, Cache.invalidate
raises instead of degrading to a no-op: the failure reaches the caller,
contradicting the claim that cache operation failures are always swallowed. -/
theorem c2_counterexample :
    Cache.invalidate failedSession 0 1 = .error .unavailable := rfl

/-- C2 (amended): a storage failure during Cache.invalidate is not swallowed:
the function has no exception handling, so the error propagates out of the
with_session wrapper - which rolls the session back, closes it and re-raises
- and the request fails instead of being treated as a cache miss. -/
theorem c2_amended (db : DBState) (earliest latest : Timestamp) :
    with_session (fun s => Cache.invalidate s earliest latest) db true
      = .error .unavailable := rfl

/-- C3: filter_query keeps exactly the points with begin <= timestamp
(inclusive) and timestamp < end (exclusive), relative to the same query
without time bounds; with begin = end the half-open interval is empty, so the
result has zero points and get_statistics over it has zero groups, and no
error is raised (every function involved is total). -/
theorem c3_filter_query_time (dw : Geom → Wkt → ℚ → Bool) (wi : Geom → Wkt → Bool)
    (q : PointQuery) (wkt : Option Wkt) (dist : Option ℚ) (b e : Timestamp)
    (dt : String → Timestamp → Timestamp) (il : String) :
    (∀ p : Carbonmonoxide,
      p ∈ (filter_query dw wi q wkt dist (some b) (some e)).rows ↔
        p ∈ (filter_query dw wi q wkt dist none none).rows ∧
          b ≤ p.timestamp ∧ p.timestamp < e) ∧
    (b = e →
      (filter_query dw wi q wkt dist (some b) (some e)).rows = [] ∧
      get_statistics dt il (filter_query dw wi q wkt dist (some b) (some e)).rows
        = []) := by
  have hq : filter_query dw wi q wkt dist (some b) (some e)
      = ((filter_query dw wi q wkt dist none none).filter
          (fun p => decide (b ≤ p.timestamp))).filter
          (fun p => decide (e > p.timestamp)) := rfl
  have hmem : ∀ p : Carbonmonoxide,
      p ∈ (filter_query dw wi q wkt dist (some b) (some e)).rows ↔
        p ∈ (filter_query dw wi q wkt dist none none).rows ∧
          b ≤ p.timestamp ∧ p.timestamp < e := by
    intro p
    rw [hq]
    simp [PointQuery.filter, List.mem_filter, and_assoc]
    exact fun _ => and_comm
  refine ⟨hmem, ?_⟩
  intro hbe
  subst hbe
  have hnil : (filter_query dw wi q wkt dist (some b) (some b)).rows = [] := by
    apply List.eq_nil_iff_forall_not_mem.mpr
    intro p hp
    rcases (hmem p).mp hp with ⟨-, h1, h2⟩
    exact absurd (lt_of_le_of_lt h1 h2) (lt_irrefl b)
  refine ⟨hnil, ?_⟩
  rw [hnil]
  rfl

/-- C3 witness: a query holding one point with timestamp 5, filtered with
begin = end = 5, yields no points and no statistics groups. -/
theorem c3_witness :
    (filter_query dwAny wiAny demoQuery none none (some 5) (some 5)).rows = [] ∧
    get_statistics dtId "day"
      (filter_query dwAny wiAny demoQuery none none (some 5) (some 5)).rows = [] :=
  (c3_filter_query_time dwAny wiAny demoQuery none none 5 5 dtId "day").2 rfl

/-- C4 (counterexample): the point query requests no ordering, so the storage
may return the filtered rows in any order; executing limit=1, offset=1 over
the three stored points can return the first-inserted point instead of the
second-inserted one, refuting the claimed stable primary-key pagination. -/
theorem c4_counterexample :
    Executes (limit_offset_query (get_points threeSession) (some 1) (some 1)) [pt1]
      ∧ pt1 ≠ pt2 := by
  refine ⟨⟨[pt2, pt1, pt3], ?_, rfl⟩, by decide⟩
  exact List.Perm.swap pt1 pt2 [pt3]

/-- C4 (amended): pagination is applied after all filtering - limit and
offset never change the filtered row set, they only set the LIMIT and OFFSET
of the query - but the query requests no ordering, so the claimed page
content holds only when the storage returns the rows in primary-key
(insertion) order, in which case limit=1, offset=1 over the three stored
points does return exactly the second-inserted point. -/
theorem c4_amended :
    (∀ (q : PointQuery) (l o : Option Nat), (limit_offset_query q l o).rows = q.rows) ∧
    runQuery (limit_offset_query (get_points threeSession) (some 1) (some 1))
      (get_points threeSession).rows = [pt2] := by
  constructor
  · intro q l o
    cases l <;> cases o <;> rfl
  · rfl

/-- C5: ingest is atomic on its session: neither the batch insert nor the
ledger mark changes the committed (reader-visible) state, and on success the
single commit - the one inside Cache.invalidate - publishes the inserted
points, the ledger entry and the cache deletions together in one committed
state.  A reader therefore never observes the new points while a stale cache
entry is still present, and a failed ingest publishes nothing. -/
theorem c5_ingest_atomic (s : Session) (filename : String) (data : List PointData)
    (s2 : Session) (hfresh : s.tx = s.committed) :
    (ingest s filename data = .ok s2 →
      s2.committed =
        { carbonmonoxide := s.committed.carbonmonoxide
            ++ rowsFrom s.committed.nextId data,
          nextId := s.committed.nextId + data.length,
          files := s.committed.files ++ [filename],
          cache := s.committed.cache.filter (fun c =>
            !(Cache.shouldDelete (listMin (data.map PointData.timestamp))
              (listMax (data.map PointData.timestamp)) c)) }) ∧
    (∀ s1, insert s data = .ok s1 → s1.committed = s.committed) ∧
    (∀ s1 s1a, insert s data = .ok s1 → markImported s1 filename = .ok s1a →
      s1a.committed = s.committed) := by
  cases hf : s.storageFailed
  · refine ⟨?_, ?_, ?_⟩
    · intro hok
      by_cases hc : filename ∈ s.tx.files
      · simp [ingest, insert, markImported, hf, hc] at hok
      · simp [ingest, insert, markImported, Cache.invalidate,
          Session.cacheDeleteWhere, Session.commit, hf, hc] at hok
        subst hok
        simp [hfresh]
    · intro s1 h
      simp [insert, hf] at h
      subst h
      rfl
    · intro s1 s1a h1 h2
      simp [insert, hf] at h1
      subst h1
      by_cases hc : filename ∈ s.tx.files
      · simp [markImported, hf, hc] at h2
      · simp [markImported, hf, hc] at h2
        subst h2
        rfl
  · refine ⟨?_, ?_, ?_⟩
    · intro hok
      simp [ingest, insert, hf] at hok
    · intro s1 h
      simp [insert, hf] at h
    · intro s1 s1a h1 h2
      simp [insert, hf] at h1

/-- C5 witness: ingesting demoData as file f.nc on demoSession commits the
inserted point, the ledger entry and the cache deletion together. -/
theorem c5_ingest_atomic_witness :
    demoSession.tx = demoSession.committed ∧
    demoOutSession.committed =
      { carbonmonoxide := demoSession.committed.carbonmonoxide
          ++ rowsFrom demoSession.committed.nextId demoData,
        nextId := demoSession.committed.nextId + demoData.length,
        files := demoSession.committed.files ++ ["f.nc"],
        cache := demoSession.committed.cache.filter (fun c =>
          !(Cache.shouldDelete (listMin (demoData.map PointData.timestamp))
            (listMax (demoData.map PointData.timestamp)) c)) } :=
  ⟨rfl, (c5_ingest_atomic demoSession "f.nc" demoData demoOutSession rfl).1 rfl⟩

/-- C6: invalidate is idempotent: running the same invalidation twice in
sequence, each with its internal commit, leaves the session in exactly the
state of running it once, for every session state and every window. -/
theorem c6_invalidate_idempotent (s : Session) (earliest latest : Timestamp) :
    (Cache.invalidate s earliest latest).bind
      (fun s1 => Cache.invalidate s1 earliest latest)
      = Cache.invalidate s earliest latest := by
  unfold Cache.invalidate Session.cacheDeleteWhere Session.commit
  cases hf : s.storageFailed <;>
    simp [Except.bind, hf, List.filter_filter]

/-- C7: the spatial filter is exactly one of two mutually exclusive
predicates: with a WKT element and a distance, membership is governed by the
ST_DWithin proximity predicate alone; with a WKT element and no distance, by
the ST_Within containment predicate alone; the time bounds apply identically
in both cases. -/
theorem c7_spatial_filter (dw : Geom → Wkt → ℚ → Bool) (wi : Geom → Wkt → Bool)
    (q : PointQuery) (w : Wkt) (d : ℚ) (b e : Option Timestamp)
    (p : Carbonmonoxide) :
    (p ∈ (filter_query dw wi q (some w) (some d) b e).rows ↔
      p ∈ q.rows ∧ dw p.geom w d = true ∧ temporalOk b e p) ∧
    (p ∈ (filter_query dw wi q (some w) none b e).rows ↔
      p ∈ q.rows ∧ wi p.geom w = true ∧ temporalOk b e p) := by
  cases b <;> cases e <;>
    simp [filter_query, PointQuery.filter, temporalOk, List.mem_filter, and_assoc]
  all_goals refine ⟨fun _ => ?_, fun _ => ?_⟩ <;> tauto


/-- C8: for every granularity accepted by the date-truncation function,
get_statistics groups the points by the truncated timestamp - a tuple is
emitted exactly for the truncations realised by some point - and each
emitted tuple consists, in this order, of the group size, the group average,
the sample standard deviation (square root of the squared deviations divided
by n - 1, NULL below two rows), the minimum value, the maximum value, the
minimum timestamp, the maximum timestamp, and the interval start. -/
theorem c8_statistics (dt : String → Timestamp → Timestamp) (il : String)
    (rows : List Carbonmonoxide) (cnt : Nat) (avg : ℚ) (sd : SqlNum)
    (mn mx : ℚ) (mnt mxt k : Timestamp) :
    (cnt, avg, sd, mn, mx, mnt, mxt, k) ∈ get_statistics dt il rows ↔
      (∃ p, p ∈ rows ∧ dt il p.timestamp = k) ∧
      cnt = ((statGroup dt il rows k).map Carbonmonoxide.value).length ∧
      avg = ((statGroup dt il rows k).map Carbonmonoxide.value).sum / (cnt : ℚ) ∧
      sd = (if 2 ≤ cnt then
              SqlNum.sqrtOf ((((statGroup dt il rows k).map Carbonmonoxide.value).map
                (fun x => (x - avg) ^ 2)).sum / ((cnt : ℚ) - 1))
            else SqlNum.null) ∧
      mn ∈ (statGroup dt il rows k).map Carbonmonoxide.value ∧
      (∀ x ∈ (statGroup dt il rows k).map Carbonmonoxide.value, mn ≤ x) ∧
      mx ∈ (statGroup dt il rows k).map Carbonmonoxide.value ∧
      (∀ x ∈ (statGroup dt il rows k).map Carbonmonoxide.value, x ≤ mx) ∧
      mnt ∈ (statGroup dt il rows k).map Carbonmonoxide.timestamp ∧
      (∀ t ∈ (statGroup dt il rows k).map Carbonmonoxide.timestamp, mnt ≤ t) ∧
      mxt ∈ (statGroup dt il rows k).map Carbonmonoxide.timestamp ∧
      (∀ t ∈ (statGroup dt il rows k).map Carbonmonoxide.timestamp, t ≤ mxt) := by
  unfold get_statistics
  rw [List.mem_map]
  constructor
  · rintro ⟨k0, hk0, heq⟩
    simp only [Prod.mk.injEq] at heq
    obtain ⟨h1, h2, h3, h4, h5, h6, h7, h8⟩ := heq
    subst h8
    rw [List.mem_dedup, List.mem_map] at hk0
    obtain ⟨p, hp, hpk⟩ := hk0
    have hpg : p ∈ statGroup dt il rows k0 := by
      simp [statGroup, List.mem_filter, hp, hpk]
    have hvne : (statGroup dt il rows k0).map Carbonmonoxide.value ≠ [] :=
      List.ne_nil_of_mem (List.mem_map_of_mem Carbonmonoxide.value hpg)
    have htne : (statGroup dt il rows k0).map Carbonmonoxide.timestamp ≠ [] :=
      List.ne_nil_of_mem (List.mem_map_of_mem Carbonmonoxide.timestamp hpg)
    subst h1
    subst h2
    subst h3
    subst h4
    subst h5
    subst h6
    subst h7
    refine ⟨⟨p, hp, hpk⟩, rfl, rfl, rfl, ?_, ?_, ?_, ?_, ?_, ?_, ?_, ?_⟩
    · exact listMin_mem _ hvne
    · exact fun x hx => listMin_le _ x hx
    · exact listMax_mem _ hvne
    · exact fun x hx => listMax_ge _ x hx
    · exact listMin_mem _ htne
    · exact fun t ht => listMin_le _ t ht
    · exact listMax_mem _ htne
    · exact fun t ht => listMax_ge _ t ht
  · rintro ⟨⟨p, hp, hpk⟩, h1, h2, h3, hmn1, hmn2, hmx1, hmx2, hmnt1, hmnt2,
      hmxt1, hmxt2⟩
    subst h1
    subst h2
    subst h3
    have hpg : p ∈ statGroup dt il rows k := by
      simp [statGroup, List.mem_filter, hp, hpk]
    have hvne : (statGroup dt il rows k).map Carbonmonoxide.value ≠ [] :=
      List.ne_nil_of_mem (List.mem_map_of_mem Carbonmonoxide.value hpg)
    have htne : (statGroup dt il rows k).map Carbonmonoxide.timestamp ≠ [] :=
      List.ne_nil_of_mem (List.mem_map_of_mem Carbonmonoxide.timestamp hpg)
    refine ⟨k, ?_, ?_⟩
    · rw [List.mem_dedup, List.mem_map]
      exact ⟨p, hp, hpk⟩
    · simp only [Prod.mk.injEq]
      refine ⟨trivial, rfl, rfl, ?_, ?_, ?_, ?_, trivial⟩
      · exact ((listMin_spec _ hvne mn).mp ⟨hmn1, hmn2⟩).symm
      · exact ((listMax_spec _ hvne mx).mp ⟨hmx1, hmx2⟩).symm
      · exact ((listMin_spec _ htne mnt).mp ⟨hmnt1, hmnt2⟩).symm
      · exact ((listMax_spec _ htne mxt).mp ⟨hmxt1, hmxt2⟩).symm

/-- C9: the get_data endpoint calls db.get_points with the keyword arguments
polygon, begin and end, which get_points does not accept, so every invocation
that reaches the call raises TypeError; the get_daily endpoint looks up
db.get_daily, a name the db module does not define, so it raises
AttributeError; neither endpoint can ever return data. -/
theorem c9_endpoints_broken (b2w : BBox → Except Unit Wkt)
    (cbbs : String → Option BBox) (p2w : PolyParam → Except String Wkt)
    (session : Session) (country : Option String) (geoframe : Option BBox)
    (polygon : Option PolyParam) (b e : Option Timestamp) (l o : Option Nat) :
    (web_get_data b2w cbbs p2w session country geoframe polygon b e l o).returnsData
        = false ∧
    (web_get_daily b2w cbbs p2w session country geoframe polygon b e l o).returnsData
        = false ∧
    web_get_data b2w cbbs p2w session none none none b e l o
        = .raised .typeError ∧
    web_get_daily b2w cbbs p2w session none none none b e l o
        = .raised .attributeError := by
  refine ⟨?_, ?_, rfl, rfl⟩
  · unfold web_get_data
    cases h : spatial_wkt b2w cbbs p2w geoframe country polygon <;> rfl
  · unfold web_get_daily
    cases h : spatial_wkt b2w cbbs p2w geoframe country polygon <;> rfl

/-- C10: when several spatial parameters are supplied, exactly one of them is
used, with precedence geoframe over country over polygon: with a geoframe the
outcome does not depend on country or polygon and is decided by the geoframe
alone; without a geoframe but with a country, the outcome does not depend on
polygon; a polygon is consulted only when both others are absent. -/
theorem c10_spatial_precedence (b2w : BBox → Except Unit Wkt)
    (cbbs : String → Option BBox) (p2w : PolyParam → Except String Wkt)
    (g : BBox) (cc : String) (country : Option String)
    (polygon : Option PolyParam) (pp : PolyParam) :
    spatial_wkt b2w cbbs p2w (some g) country polygon
        = spatial_wkt b2w cbbs p2w (some g) none none ∧
    spatial_wkt b2w cbbs p2w none (some cc) polygon
        = spatial_wkt b2w cbbs p2w none (some cc) none ∧
    spatial_wkt b2w cbbs p2w (some g) country polygon
        = (match b2w g with
           | .ok w => .ok (some w)
           | .error _ => .badRequest "Invalid geoparam") ∧
    spatial_wkt b2w cbbs p2w none none (some pp)
        = (match p2w pp with
           | .ok w => .ok (some w)
           | .error msg => .badRequest msg) :=
  ⟨rfl, rfl, rfl, rfl⟩

end EmissionsApi
